import Mathlib

/-!
Shallow embedding of the pyTanks server core (src/config.py, src/wsServer.py,
src/gameClasses.py) and proofs of the specification's claims about it.

Time quantities (seconds) are modelled as rationals; Python's float arithmetic
on these small config-derived values is mirrored exactly by the same field
operations on `ℚ`.  Python `dict`s are modelled as association lists in
insertion order; `dict[k]` and `dict.pop(k)` without a default raise `KeyError`
when the key is absent, modelled by `Except String`.
-/

namespace PyTanks

/-! ## config.py -/

/-- `config.serverSettings.apiPaths` (src/config.py lines 21-23). -/
structure ApiPaths where
  viewer : String
  player : String
deriving Repr, DecidableEq

/-- `config.serverSettings.clientTypes` (src/config.py lines 25-27). -/
structure ClientTypes where
  viewer : String
  player : String
deriving Repr, DecidableEq

/-- `config.serverSettings` (src/config.py lines 12-27). -/
structure ServerSettings where
  framesPerSecond : ℚ
  updatesPerSecond : ℚ
  logLevel : ℕ
  apiPaths : ApiPaths
  clientTypes : ClientTypes
deriving Repr, DecidableEq

/-- The concrete values of `config.serverSettings` in src/config.py. -/
def serverSettings : ServerSettings :=
  { framesPerSecond := 60
    updatesPerSecond := 15
    logLevel := 1
    apiPaths := { viewer := "/pyTanksAPI/viewer", player := "/pyTanksAPI/player" }
    clientTypes := { viewer := "viewer", player := "player" } }

/-! ## wsServer.py : the client registry -/

/-- One entry of the `clients` dict: `class client` (src/wsServer.py lines
11-16).  The websocket handle is not part of the queue state; delivered
messages are tracked separately by the transport-pump model below. -/
structure Client where
  type : String
  outgoing : List String
  incoming : List String
deriving Repr, DecidableEq

/-- The `clients` dict (src/wsServer.py line 19): an insertion-ordered map
from integer clientID to client record. -/
abbrev Registry := List (ℕ × Client)

/-- Python `clientID in clients` (decidable form). -/
def Registry.containsB (clients : Registry) (id : ℕ) : Bool :=
  clients.any (fun p => p.1 == id)

/-- Python `clients[id]` as a partial lookup. -/
def Registry.lookup (clients : Registry) (id : ℕ) : Option Client :=
  (clients.find? (fun p => p.1 == id)).map (fun p => p.2)

/-- Python `clients[id] = c` for a fresh `id`: dict insertion appends in
insertion order. -/
def Registry.insert (clients : Registry) (id : ℕ) (c : Client) : Registry :=
  clients ++ [(id, c)]

/-- Removal of a key, keeping the order of the remaining entries. -/
def Registry.erase (clients : Registry) (id : ℕ) : Registry :=
  clients.filter (fun p => p.1 != id)

/-- Python `clients.pop(id)` with no default: `KeyError` when absent
(src/wsServer.py line 101). -/
def Registry.dictPop (clients : Registry) (id : ℕ) : Except String Registry :=
  if clients.containsB id then .ok (clients.erase id) else .error "KeyError"

/-- Update the record stored under `id`, when present. -/
def Registry.modify (clients : Registry) (id : ℕ) (f : Client → Client) : Registry :=
  clients.map (fun p => if p.1 == id then (p.1, f p.2) else p)

/-! ## wsServer.py : send (broadcast fan-out) -/

/-- `isinstance(recipient, int)` distinguishes an integer clientID from a
client-type string (src/wsServer.py line 24). -/
inductive Recipient where
  | id (n : ℕ)
  | ctype (t : String)
deriving Repr, DecidableEq

/-- `send(recipient, message)` (src/wsServer.py lines 23-32).  For an integer
recipient the source runs `clients[recipient].outgoing.append(message)`,
which raises `KeyError` when the recipient is absent; for a type string it
appends to the outgoing queue of every client of that type. -/
def send (recipient : Recipient) (message : String) (clients : Registry) :
    Except String Registry :=
  match recipient with
  | .id n =>
      if clients.containsB n then
        .ok (clients.modify n (fun c => { c with outgoing := c.outgoing ++ [message] }))
      else
        .error "KeyError"
  | .ctype t =>
      .ok (clients.map (fun p =>
        if p.2.type == t then (p.1, { p.2 with outgoing := p.2.outgoing ++ [message] })
        else p))

/-! ## wsServer.py : clientHandler (admission) -/

/-- Outcome of one `clientHandler` invocation (src/wsServer.py lines 61-90):
either the connection is rejected with a message sent on the socket and no
registration, or a client is admitted under a fresh identity.  `exhausted`
marks a run of the identity loop that consumed every modelled random draw
without finding a free identity (the source loop would keep drawing). -/
inductive HandlerResult where
  | rejected (sentMessage : String) (clients : Registry)
  | admitted (clientID : ℕ) (clients : Registry)
  | exhausted
deriving Repr, DecidableEq

/-- The identity-generation loop (src/wsServer.py lines 74-82): repeatedly
draw a candidate and stop at the first one not already in `clients`.  The
stream of `random.randint` results is modelled by the list `draws`. -/
def genClientID (clients : Registry) (draws : List ℕ) : Option ℕ :=
  draws.find? (fun d => !(clients.containsB d))

/-- `clientHandler`'s admission logic (src/wsServer.py lines 61-90): map the
path to a client type via `config.serverSettings.apiPaths`, reject any other
path with the literal message of line 70 and return without registering,
otherwise generate an identity and register the new client. -/
def clientHandler (settings : ServerSettings) (path : String) (draws : List ℕ)
    (clients : Registry) : HandlerResult :=
  let clientType? : Option String :=
    if path = settings.apiPaths.viewer then some settings.clientTypes.viewer
    else if path = settings.apiPaths.player then some settings.clientTypes.player
    else none
  match clientType? with
  | none => .rejected "Invalid API path - Check that your client config is up to date" clients
  | some clientType =>
      match genClientID clients draws with
      | none => .exhausted
      | some clientID =>
          .admitted clientID (clients.insert clientID ⟨clientType, [], []⟩)

/-! ## wsServer.py : sendTask (drain loop) -/

/-- One scheduling event against a registered session's outbound queue:
`enq m` is `send` appending a message (src/wsServer.py line 25); `drain` is
one iteration of `sendTask`'s loop body (src/wsServer.py lines 52-56): when
the queue is non-empty, `outgoing.pop(0)` is transmitted on the socket, and
when it is empty the task only sleeps. -/
inductive PumpEv where
  | enq (m : String)
  | drain
deriving Repr, DecidableEq

/-- State: the session's outbound queue paired with the list of messages
already transmitted on its socket, in transmission order. -/
def pumpStep : List String × List String → PumpEv → List String × List String
  | (q, sent), .enq m => (q ++ [m], sent)
  | (q, sent), .drain =>
      match q with
      | [] => (q, sent)
      | m :: rest => (rest, sent ++ [m])

/-- Run a sequence of enqueue/drain events from an empty queue and an idle
socket, while the session stays registered throughout. -/
def pumpRun (evs : List PumpEv) : List String × List String :=
  evs.foldl pumpStep ([], [])

/-- The messages enqueued over a run, in enqueue order. -/
def enqueuedOf (evs : List PumpEv) : List String :=
  evs.filterMap (fun e => match e with | .enq m => some m | .drain => none)

/-! ## wsServer.py : receive loop -/

/-- Outcome of one `await websocket.recv()`: a message, or a
`websockets.exceptions.ConnectionClosed` raised for a transport-level
closure — clean (close code 1000) or any other transport fault, both
surfacing as the same exception class. -/
inductive RecvResult where
  | msg (m : String)
  | closed (clean : Bool)
deriving Repr, DecidableEq

/-- The receive loop of `clientHandler` (src/wsServer.py lines 93-103):
while the client is registered, append each received message to its incoming
queue; on `ConnectionClosed` run `clients.pop(clientID)` and exit.  Any
exception `dictPop` raises propagates as the `Except.error` result. -/
def receiveLoop (id : ℕ) (inputs : List RecvResult) (clients : Registry) :
    Except String Registry :=
  if clients.containsB id then
    match inputs with
    | [] => .ok clients
    | .msg m :: rest =>
        receiveLoop id rest
          (clients.modify id (fun c => { c with incoming := c.incoming ++ [m] }))
    | .closed _ :: _ => clients.dictPop id
  else .ok clients

/-! ## wsServer.py : frameLoop (tick scheduler) -/

/-- The mutable per-iteration state of `frameLoop` (src/wsServer.py lines
109-121), without the wall-clock fields and the FPS-logging counters. -/
structure FrameState where
  delay : ℚ
  deltas : List ℚ
  timeSinceLastUpdate : ℚ
deriving Repr, DecidableEq

/-- The rolling-window push (src/wsServer.py lines 127-129): append the new
delta and drop the oldest sample once the window exceeds 15 entries. -/
def pushDelta (deltas : List ℚ) (frameDelta : ℚ) : List ℚ :=
  let ds := deltas ++ [frameDelta]
  if ds.length > 15 then ds.tail else ds

/-- The delay adjustment and floor clamp (src/wsServer.py lines 131-139). -/
def adjustDelay (settings : ServerSettings) (avgDelta delay : ℚ) : ℚ :=
  let baseDelay := 1 / settings.framesPerSecond
  let d :=
    if avgDelta * settings.framesPerSecond < 0.95 then delay + baseDelay * 0.01
    else if avgDelta * settings.framesPerSecond > 1.05 then delay - baseDelay * 0.01
    else delay
  if d < 1 / 250 then 1 / 250 else d

/-- One iteration of `frameLoop`'s `while True` body (src/wsServer.py lines
123-160) for a given measured `frameDelta`: push the delta, adjust the
delay, accumulate `timeSinceLastUpdate` and decide whether `updateCallback`
runs.  Returns the new state and whether `updateCallback` was invoked;
`frameCallback frameDelta` runs unconditionally every tick (line 151). -/
def frameStep (settings : ServerSettings) (s : FrameState) (frameDelta : ℚ) :
    FrameState × Bool :=
  let deltas := pushDelta s.deltas frameDelta
  let avgDelta := deltas.sum / (deltas.length : ℚ)
  let delay := adjustDelay settings avgDelta s.delay
  let t := s.timeSinceLastUpdate + frameDelta
  if t ≥ 1 / settings.updatesPerSecond then
    ({ delay := delay, deltas := deltas, timeSinceLastUpdate := 0 }, true)
  else
    ({ delay := delay, deltas := deltas, timeSinceLastUpdate := t }, false)

/-- The initial values of `frameLoop`'s state (src/wsServer.py lines
112-117): `delay = baseDelay = 1/framesPerSecond`, an empty delta window,
and `timeSinceLastUpdate = 1/updatesPerSecond`. -/
def initFrameState (settings : ServerSettings) : FrameState :=
  { delay := 1 / settings.framesPerSecond
    deltas := []
    timeSinceLastUpdate := 1 / settings.updatesPerSecond }

/-- The delay values passed to `asyncio.sleep` on line 160 over a run of
consecutive iterations whose measured frame deltas are `ds`. -/
def sleepDelays (settings : ServerSettings) (s : FrameState) : List ℚ → List ℚ
  | [] => []
  | fd :: rest =>
      let s' := (frameStep settings s fd).1
      s'.delay :: sleepDelays settings s' rest

/-! ## gameClasses.py : tank snapshots -/

/-- A Python value stored in `tank.__dict__`. -/
inductive Val where
  | num (x : ℚ)
  | flag (b : Bool)
  | str (s : String)
  | time (t : ℚ)
deriving Repr, DecidableEq

/-- The instance attributes of `class tank` in `__dict__` insertion order
(src/gameClasses.py lines 13-27); the private attribute's mangled name is
`_tank__lastShotTime`. -/
structure Tank where
  x : ℚ
  y : ℚ
  heading : ℚ
  moving : Bool
  lastShotTime : ℚ
  status : String
  kills : ℕ
  wins : ℕ
deriving Repr, DecidableEq

/-- Python `del myDict[key]` on an insertion-ordered dict whose key is
present: remove it, keeping the order of the remaining entries. -/
def delKey (d : List (String × Val)) (key : String) : List (String × Val) :=
  d.filter (fun p => p.1 != key)

/-- `tank.toDict(doClean)` (src/gameClasses.py lines 48-59): shallow-copy
`__dict__`, always delete `_tank__lastShotTime`, and when `doClean` is true
also delete `kills` and `wins`. -/
def Tank.toDict (t : Tank) (doClean : Bool) : List (String × Val) :=
  let myDict : List (String × Val) :=
    [("x", .num t.x), ("y", .num t.y), ("heading", .num t.heading),
     ("moving", .flag t.moving), ("_tank__lastShotTime", .time t.lastShotTime),
     ("status", .str t.status), ("kills", .num t.kills), ("wins", .num t.wins)]
  let cleaned := delKey myDict "_tank__lastShotTime"
  if doClean then delKey (delKey cleaned "kills") "wins" else cleaned

/-- The key set of a modelled dict. -/
def dictKeys (d : List (String × Val)) : List String :=
  d.map (fun p => p.1)

/-! ## Claims -/

/-- C1 counterexample: `send` to the absent integer identity 0 on an empty
registry raises `KeyError`; it is not an error-free no-op. -/
theorem send_absent_counterexample :
    send (.id 0) "hello" ([] : Registry) = Except.error "KeyError" := rfl

/-- C1 (amended): for every call of `send` with an integer identity recipient
that is not present in the client registry, the call raises `KeyError` and
modifies no client's queues (the error is raised before any append). -/
theorem send_absent_raises (n : ℕ) (message : String) (clients : Registry)
    (h : clients.containsB n = false) :
    send (.id n) message clients = Except.error "KeyError" := by
  simp [send, h]

/-- C1 witness: the amended claim at recipient 7 on an empty registry. -/
theorem send_absent_raises_witness :
    Registry.containsB [] 7 = false ∧
      send (.id 7) "m" ([] : Registry) = Except.error "KeyError" :=
  ⟨rfl, send_absent_raises 7 "m" [] rfl⟩

/-- C7 counterexample: `clients.pop(id)` on a registry not containing `id`
raises `KeyError`; it is not an error-free no-op, so removal via the source's
`clients.pop(clientID)` is not idempotent. -/
theorem dictPop_absent_counterexample :
    Registry.dictPop ([] : Registry) 5 = Except.error "KeyError" := rfl

/-- C7 (amended): the registry removal operation `clients.pop(clientID)`
removes the entry when the identity is present, and raises `KeyError`
(leaving the registry unchanged) when the identity is absent. -/
theorem dictPop_spec (clients : Registry) (id : ℕ) :
    (clients.containsB id = false →
        clients.dictPop id = Except.error "KeyError") ∧
    (clients.containsB id = true →
        clients.dictPop id = Except.ok (clients.erase id)) := by
  constructor <;> intro h <;> simp [Registry.dictPop, h]

/-- C7 witness: the amended claim at a present and at an absent identity. -/
theorem dictPop_spec_witness :
    Registry.dictPop [(2, ⟨"viewer", [], []⟩)] 9 = Except.error "KeyError" ∧
    Registry.dictPop [(2, ⟨"viewer", [], []⟩)] 2
      = Except.ok (Registry.erase [(2, ⟨"viewer", [], []⟩)] 2) :=
  ⟨(dictPop_spec [(2, ⟨"viewer", [], []⟩)] 9).1 rfl,
   (dictPop_spec [(2, ⟨"viewer", [], []⟩)] 2).2 rfl⟩

/-- C6: a `ConnectionClosed` raised for any transport fault (`clean = false`)
is handled by the receive loop exactly as a clean closure signal
(`clean = true`): the except clause does not inspect the exception, and when
the session is registered the outcome is that it is removed from the registry
and the loop exits. -/
theorem receiveLoop_fault_closes (id : ℕ) (clients : Registry) (clean : Bool)
    (rest : List RecvResult) :
    receiveLoop id (.closed clean :: rest) clients
      = receiveLoop id (.closed true :: rest) clients ∧
    (clients.containsB id = true →
      receiveLoop id (.closed clean :: rest) clients
        = Except.ok (clients.erase id)) := by
  constructor
  · by_cases h : clients.containsB id <;> simp [receiveLoop, h]
  · intro h
    simp [receiveLoop, h, Registry.dictPop]

/-- C6 witness: an abnormal closure on a registered session removes it. -/
theorem receiveLoop_fault_closes_witness :
    receiveLoop 1 [RecvResult.closed false] [(1, ⟨"player", [], []⟩)]
      = Except.ok (Registry.erase [(1, ⟨"player", [], []⟩)] 1) :=
  (receiveLoop_fault_closes 1 [(1, ⟨"player", [], []⟩)] false []).2 rfl

/-- C9: for every tank, the cleaned snapshot (`toDict True`) contains neither
`kills`, `wins`, nor the mangled last-shot timestamp key, and the unclean
snapshot (`toDict False`) still omits the last-shot timestamp while retaining
`kills` and `wins`. -/
theorem toDict_clean_fields (t : Tank) (doClean : Bool) :
    "_tank__lastShotTime" ∉ dictKeys (t.toDict doClean) ∧
    "kills" ∉ dictKeys (t.toDict true) ∧
    "wins" ∉ dictKeys (t.toDict true) ∧
    "kills" ∈ dictKeys (t.toDict false) ∧
    "wins" ∈ dictKeys (t.toDict false) := by
  cases doClean <;> simp [Tank.toDict, delKey, dictKeys]

/-- C9 witness: the clean/unclean key facts at a concrete tank. -/
theorem toDict_clean_fields_witness :
    "kills" ∉ dictKeys (Tank.toDict ⟨0, 0, 0, false, 0, "alive", 0, 0⟩ true) ∧
    "kills" ∈ dictKeys (Tank.toDict ⟨0, 0, 0, false, 0, "alive", 0, 0⟩ false) :=
  ⟨(toDict_clean_fields ⟨0, 0, 0, false, 0, "alive", 0, 0⟩ true).2.1,
   (toDict_clean_fields ⟨0, 0, 0, false, 0, "alive", 0, 0⟩ false).2.2.2.1⟩

/-- The floor clamp on the last line of the adjustment block is `max (1/250)`. -/
theorem clamp_eq_max (d : ℚ) :
    (if d < 1 / 250 then 1 / 250 else d) = max (1 / 250) d := by
  rcases lt_or_le d (1 / 250) with h | h
  · rw [if_pos h, (max_eq_left h.le)]
  · rw [if_neg (not_lt.2 h), (max_eq_right h)]

/-- C3: with `average` the rolling-window mean, the delay update of one
scheduler iteration is: increase by exactly `(1/targetFrameRate) * 1%` when
`average * targetFrameRate < 0.95`, decrease by the same step when it is
`> 1.05`, and leave the delay unchanged when the ratio stays inside
`[0.95, 1.05]` — modulo the unconditional `1/250` floor clamp, which is the
identity whenever the delay is already at or above the floor. -/
theorem adjustDelay_controller (settings : ServerSettings) (avgDelta delay : ℚ) :
    (avgDelta * settings.framesPerSecond < 0.95 →
        adjustDelay settings avgDelta delay
          = max (1 / 250) (delay + (1 / settings.framesPerSecond) * 0.01)) ∧
    (avgDelta * settings.framesPerSecond > 1.05 →
        adjustDelay settings avgDelta delay
          = max (1 / 250) (delay - (1 / settings.framesPerSecond) * 0.01)) ∧
    (0.95 ≤ avgDelta * settings.framesPerSecond →
      avgDelta * settings.framesPerSecond ≤ 1.05 →
        adjustDelay settings avgDelta delay = max (1 / 250) delay ∧
        (1 / 250 ≤ delay → adjustDelay settings avgDelta delay = delay)) := by
  refine ⟨fun h => ?_, fun h => ?_, fun h1 h2 => ?_⟩
  · simp only [adjustDelay, if_pos h]
    exact clamp_eq_max _
  · have h' : ¬ avgDelta * settings.framesPerSecond < 0.95 := by linarith
    simp only [adjustDelay, if_neg h', if_pos h]
    exact clamp_eq_max _
  · have h' : ¬ avgDelta * settings.framesPerSecond < 0.95 := by linarith
    have h'' : ¬ avgDelta * settings.framesPerSecond > 1.05 := by linarith
    refine ⟨?_, fun hd => ?_⟩
    · simp only [adjustDelay, if_neg h', if_neg h'']
      exact clamp_eq_max _
    · simp only [adjustDelay, if_neg h', if_neg h'']
      rw [if_neg (not_lt.2 hd)]

/-- C3 witness: with the configured target rate 60, a window average of
`1/100` s (ratio 0.6 < 0.95) nudges the delay up by one step. -/
theorem adjustDelay_controller_witness :
    (1 / 100 : ℚ) * serverSettings.framesPerSecond < 0.95 ∧
    adjustDelay serverSettings (1 / 100) (1 / 60)
      = max (1 / 250) (1 / 60 + (1 / serverSettings.framesPerSecond) * 0.01) :=
  ⟨by norm_num [serverSettings],
   (adjustDelay_controller serverSettings (1 / 100) (1 / 60)).1
     (by norm_num [serverSettings])⟩

/-- The adjusted delay is never below the `1/250` floor. -/
theorem adjustDelay_floor (settings : ServerSettings) (avgDelta delay : ℚ) :
    1 / 250 ≤ adjustDelay settings avgDelta delay := by
  simp only [adjustDelay]
  rw [clamp_eq_max]
  exact le_max_left _ _

/-- C4: on every iteration of the scheduler loop, whatever the sequence of
measured frame deltas, the delay value passed to the sleep is at least
`1/250` second. -/
theorem sleepDelays_floor (settings : ServerSettings) (s : FrameState)
    (ds : List ℚ) : ∀ d ∈ sleepDelays settings s ds, 1 / 250 ≤ d := by
  induction ds generalizing s with
  | nil => intro d hd; simp [sleepDelays] at hd
  | cons fd rest ih =>
    intro d hd
    simp only [sleepDelays, List.mem_cons] at hd
    rcases hd with h | h
    · subst h
      simp only [frameStep]
      split <;> exact adjustDelay_floor _ _ _
    · exact ih _ d h

/-- C4 witness: the first sleep of a run started from the initial state with
a zero first delta respects the floor. -/
theorem sleepDelays_floor_witness :
    (1 : ℚ) / 250 ≤ ((frameStep serverSettings (initFrameState serverSettings) 0).1).delay :=
  sleepDelays_floor serverSettings (initFrameState serverSettings) [0]
    ((frameStep serverSettings (initFrameState serverSettings) 0).1).delay
    (by simp [sleepDelays])

/-- C8: on every tick, `frameDelta` is added to the time-since-last-broadcast
counter; `updateCallback` is invoked exactly when the accumulated counter
reaches or exceeds `1/updatesPerSecond`, in which case the counter is reset
to zero, and otherwise the counter keeps its accumulated value. -/
theorem frameStep_update_cadence (settings : ServerSettings) (s : FrameState)
    (fd : ℚ) :
    ((frameStep settings s fd).2 = true ↔
        1 / settings.updatesPerSecond ≤ s.timeSinceLastUpdate + fd) ∧
    ((frameStep settings s fd).2 = true →
        ((frameStep settings s fd).1).timeSinceLastUpdate = 0) ∧
    ((frameStep settings s fd).2 = false →
        ((frameStep settings s fd).1).timeSinceLastUpdate
          = s.timeSinceLastUpdate + fd) := by
  simp only [frameStep, ge_iff_le]
  split
  · simp_all
  · simp_all

/-- C8 witness: the cadence facts at a state with a zeroed counter and a
one-second frame delta under the configured update rate of 15 per second. -/
theorem frameStep_update_cadence_witness :
    (frameStep serverSettings ⟨1 / 60, [], 0⟩ 1).2 = true ∧
    ((frameStep serverSettings ⟨1 / 60, [], 0⟩ 1).1).timeSinceLastUpdate = 0 := by
  have h := frameStep_update_cadence serverSettings ⟨1 / 60, [], 0⟩ 1
  have hb : (frameStep serverSettings ⟨1 / 60, [], 0⟩ 1).2 = true :=
    h.1.mpr (by norm_num [serverSettings])
  exact ⟨hb, h.2.1 hb⟩

/-- C10: `timeSinceLastUpdate` starts at exactly the broadcast threshold
`1/updatesPerSecond` (not zero), so the very first scheduler iteration
invokes `updateCallback` for every non-negative first frame delta. -/
theorem firstTick_updates (settings : ServerSettings) (fd : ℚ) (h : 0 ≤ fd) :
    (initFrameState settings).timeSinceLastUpdate
      = 1 / settings.updatesPerSecond ∧
    (frameStep settings (initFrameState settings) fd).2 = true := by
  refine ⟨rfl, ?_⟩
  have := frameStep_update_cadence settings (initFrameState settings) fd
  exact this.1.mpr (by simp only [initFrameState]; linarith)

/-- C10 witness: the first tick broadcasts even with a zero first delta. -/
theorem firstTick_updates_witness :
    (frameStep serverSettings (initFrameState serverSettings) 0).2 = true :=
  (firstTick_updates serverSettings 0 le_rfl).2

/-- Invariant of the drain loop: over any event interleaving, the messages
already transmitted followed by the still-queued ones are exactly the
messages enqueued so far, in enqueue order. -/
theorem pumpRun_aux (evs : List PumpEv) :
    ∀ q sent : List String,
      (evs.foldl pumpStep (q, sent)).2 ++ (evs.foldl pumpStep (q, sent)).1
        = (sent ++ q) ++ enqueuedOf evs := by
  induction evs with
  | nil => intro q sent; simp [enqueuedOf]
  | cons e rest ih =>
    intro q sent
    cases e with
    | enq m =>
      simp only [List.foldl_cons, pumpStep, enqueuedOf, List.filterMap_cons]
      rw [ih (q ++ [m]) sent]
      simp [enqueuedOf, List.append_assoc]
    | drain =>
      cases q with
      | nil =>
        simp only [List.foldl_cons, pumpStep, enqueuedOf, List.filterMap_cons]
        rw [ih [] sent]
        simp [enqueuedOf]
      | cons m q' =>
        simp only [List.foldl_cons, pumpStep, enqueuedOf, List.filterMap_cons]
        rw [ih q' (sent ++ [m])]
        simp [enqueuedOf, List.append_assoc]

/-- C5: for any interleaving of enqueues and drain-loop iterations on one
registered session, the transmitted messages followed by the remaining queue
equal the enqueued messages in enqueue order; in particular, once the queue
is fully drained every enqueued message has been sent exactly once, in
order, with none lost and none duplicated. -/
theorem pump_fifo (evs : List PumpEv) :
    (pumpRun evs).2 ++ (pumpRun evs).1 = enqueuedOf evs ∧
    ((pumpRun evs).1 = [] → (pumpRun evs).2 = enqueuedOf evs) := by
  have h := pumpRun_aux evs [] []
  simp only [List.append_nil, List.nil_append] at h
  simp only [pumpRun]
  refine ⟨h, fun hq => ?_⟩
  rw [← h, hq, List.append_nil]

/-- C5 witness: two enqueues followed by two drain iterations transmit both
messages in order and empty the queue. -/
theorem pump_fifo_witness :
    (pumpRun [PumpEv.enq "a", PumpEv.enq "b", PumpEv.drain, PumpEv.drain]).2
      = enqueuedOf [PumpEv.enq "a", PumpEv.enq "b", PumpEv.drain, PumpEv.drain] :=
  (pump_fifo [PumpEv.enq "a", PumpEv.enq "b", PumpEv.drain, PumpEv.drain]).2 rfl

/-- The identity loop returns the first drawn candidate that is free: it is
not registered and it came from the draw stream. -/
theorem genClientID_spec (clients : Registry) (draws : List ℕ) (id : ℕ)
    (h : genClientID clients draws = some id) :
    clients.containsB id = false ∧ id ∈ draws := by
  unfold genClientID at h
  refine ⟨?_, List.mem_of_find?_eq_some h⟩
  have := List.find?_some h
  simpa using this

/-- An admitted connection got its identity from the identity loop. -/
theorem clientHandler_admitted_genID (settings : ServerSettings) (path : String)
    (draws : List ℕ) (clients : Registry) (id : ℕ) (clients' : Registry)
    (h : clientHandler settings path draws clients
          = HandlerResult.admitted id clients') :
    genClientID clients draws = some id := by
  unfold clientHandler at h
  cases hg : genClientID clients draws with
  | none =>
    rw [hg] at h
    split at h <;> (try split at h) <;> simp_all
  | some i =>
    rw [hg] at h
    split at h <;> (try split at h) <;> simp_all

/-- C2: every connection admitted on a valid path receives an identity that
no other registered session currently holds, and on the player path — whose
`random.randint(0, len(tankNames) - 1)` draws all lie below the player-slot
count (the size of `config.serverSettings.tankNames`, which src/config.py
does not define; only its size matters here) — the identity lies in
`[0, playerSlots)`.  A connection on any other path gets the literal
human-readable rejection message sent to its socket, registers no session,
and the handler returns, which terminates the connection. -/
theorem clientHandler_admission (playerSlots : ℕ) (path : String)
    (draws : List ℕ) (clients : Registry) :
    (∀ id clients',
        clientHandler serverSettings path draws clients
          = HandlerResult.admitted id clients' →
        clients.containsB id = false ∧
        ((∀ d ∈ draws, d < playerSlots) → id < playerSlots)) ∧
    (path ≠ serverSettings.apiPaths.viewer →
      path ≠ serverSettings.apiPaths.player →
        clientHandler serverSettings path draws clients
          = HandlerResult.rejected
              "Invalid API path - Check that your client config is up to date"
              clients) := by
  constructor
  · intro id clients' h
    have hg := clientHandler_admitted_genID serverSettings path draws clients id clients' h
    obtain ⟨hfree, hmem⟩ := genClientID_spec clients draws id hg
    exact ⟨hfree, fun hrange => hrange id hmem⟩
  · intro hv hp
    simp only [clientHandler, if_neg hv, if_neg hp]

/-- C2 witness: on the player path with the single draw 3 (below a slot count
of 5) the handler admits identity 3, free and in range; on a bogus path it
rejects with the literal message and registers nothing. -/
theorem clientHandler_admission_witness :
    (Registry.containsB [] 3 = false ∧ 3 < 5) ∧
    clientHandler serverSettings "/bogus" [3] ([] : Registry)
      = HandlerResult.rejected
          "Invalid API path - Check that your client config is up to date" [] := by
  constructor
  · have h := (clientHandler_admission 5 "/pyTanksAPI/player" [3] ([] : Registry)).1
      3 (Registry.insert [] 3 ⟨"player", [], []⟩) rfl
    exact ⟨h.1, h.2 (by decide)⟩
  · exact (clientHandler_admission 5 "/bogus" [3] ([] : Registry)).2
      (by decide) (by decide)

end PyTanks
